import Mathlib

/-!
Verification of the epoll syscall front-end of the Shadow simulator
(`src/main/host/syscall/epoll.c`).

The four handlers `epoll_create`, `epoll_create1`, `epoll_ctl` and
`epoll_wait` are embedded as pure Lean functions over an explicit
environment `SysCallHandler` that packages the collaborators
(descriptor table lookup, readiness engine, guest memory, scheduler).
Each handler returns its `SysCallReturn` paired with the ordered list
of collaborator calls it performed (`Effect`), so that claims about
"no state is touched" or "a wake condition is registered" become
decidable statements about the trace.
-/

namespace Shadow

/-- Descriptor type tags (the subset needed here; `DT_NONE` is the
wildcard expectation used by the validation contract). -/
inductive DType where
  | DT_NONE
  | DT_EPOLL
  | DT_TCPSOCKET
  | DT_TIMER
  deriving DecidableEq, Repr

/-- A descriptor as consumed by the front-end: a type tag, its table
handle, and its flag bits. -/
structure Descriptor where
  dtype : DType
  handle : Int
  flags : Int
  deriving DecidableEq, Repr

/-- One guest `struct epoll_event`: 32-bit interest mask and 64-bit
opaque user token. -/
structure EpollEvent where
  events : Nat
  data : Nat
  deriving DecidableEq, Repr

/-- Control state of a syscall return (`SYSCALL_DONE` / `SYSCALL_BLOCK`). -/
inductive SysCallState where
  | SYSCALL_DONE
  | SYSCALL_BLOCK
  deriving DecidableEq, Repr

/-- The C `SysCallReturn`: control state plus the `retval.as_i64` slot
(zero-initialized when the compound literal omits it, as on the BLOCK
path). -/
structure SysCallReturn where
  state : SysCallState
  retval : Int
  deriving DecidableEq, Repr

/-- One observable call into a collaborator, in program order. -/
inductive Effect where
  | lookupDescriptor (fd : Int)
  | createDescriptor (t : DType)
  | addFlags (handle : Int) (flags : Int)
  | getReadablePtr (ptr : Int) (len : Nat)
  | getWriteablePtr (ptr : Int) (len : Nat)
  | getNumReadyEvents (epfd : Int)
  | epollControl (epfd : Int) (op : Int) (childfd : Int)
  | epollControlOS (epfd : Int) (op : Int) (osfd : Int)
  | getEvents (epfd : Int) (capacity : Nat)
  | setListenTimeout (ms : Int)
  | listenForStatus (hasTimer : Bool) (target : Int) (statusMask : Nat)
  deriving DecidableEq, Repr

/-- `EPOLL_CLOEXEC` (= `O_CLOEXEC` = 0o2000000). -/
def EPOLL_CLOEXEC : Int := 524288

/-- errno values used by the front-end. -/
def EINVAL : Int := 22

def EFAULT : Int := 14

def EBADF : Int := 9

/-- `DS_READABLE` status bit (value itself immaterial to the claims). -/
def DS_READABLE : Nat := 1

/-- `sizeof(struct epoll_event)` on the target ABI (packed: 4 + 8). -/
def sizeofEpollEvent : Nat := 12

/-- The environment a handler runs in: the `SysCallHandler*` together
with deterministic models of every collaborator it consults. -/
structure SysCallHandler where
  /-- `host_lookupDescriptor`: handle-to-object lookup of the host. -/
  lookupDescriptor : Int → Option Descriptor
  /-- `host_getOSHandle`: OS-handle map of the owning process
  (negative result means no mapping). -/
  getOSHandle : Int → Int
  /-- the descriptor `host_createDescriptor(host, DT_EPOLL)` yields. -/
  createdEpoll : Descriptor
  /-- `epoll_getNumReadyEvents` of the readiness engine. -/
  numReadyEvents : Descriptor → Nat
  /-- return code of `epoll_control(epoll, op, child, event)`. -/
  epollControl : Descriptor → Int → Descriptor → EpollEvent → Int
  /-- return code of `epoll_controlOS(epoll, op, osfd, event)`. -/
  epollControlOS : Descriptor → Int → Int → EpollEvent → Int
  /-- guest memory read through `thread_getReadablePtr`. -/
  readEvent : Int → EpollEvent
  /-- `_syscallhandler_wasBlocked`: the was-previously-blocked flag
  distinguishing a fresh call from a resumed retry. -/
  wasBlocked : Bool

/-- Modelled from the spec: `_syscallhandler_validateDescriptor` is not
under `src/`; per the validation contract the lookup outcome is either
the typed object (0), a not-found signal (`-EBADF`), or a wrong-type
signal (`-EINVAL`), with expectation `DT_NONE` accepting any type. -/
def validateDescriptor (d : Option Descriptor) (expected : DType) : Int :=
  match d with
  | none => -EBADF
  | some desc =>
      if expected ≠ DType.DT_NONE ∧ desc.dtype ≠ expected then -EINVAL else 0

/-- Modelled from the spec: `epoll_getEvents` is not under `src/`; per
the engine contract it produces, in insertion order, up to `capacity`
ready events, so the delivered count is `min capacity numReady`. -/
def epoll_getEvents_count (numReady capacity : Nat) : Nat :=
  min capacity numReady

/-- `_syscallhandler_createEpollHelper`: shared creation path of
`epoll_create` and `epoll_create1`. -/
def syscallhandler_createEpollHelper (sys : SysCallHandler)
    (size flags : Int) : Int × List Effect :=
  if size ≤ 0 ∨ (flags ≠ 0 ∧ flags ≠ EPOLL_CLOEXEC) then
    (-EINVAL, [])
  else
    let desc := sys.createdEpoll
    let tr :=
      if flags.land EPOLL_CLOEXEC ≠ 0 then
        [Effect.createDescriptor DType.DT_EPOLL,
         Effect.addFlags desc.handle EPOLL_CLOEXEC]
      else
        [Effect.createDescriptor DType.DT_EPOLL]
    (desc.handle, tr)

/-- `syscallhandler_epoll_create`. -/
def syscallhandler_epoll_create (sys : SysCallHandler) (size : Int) :
    SysCallReturn × List Effect :=
  let r := syscallhandler_createEpollHelper sys size 0
  ({ state := SysCallState.SYSCALL_DONE, retval := r.1 }, r.2)

/-- `syscallhandler_epoll_create1`. -/
def syscallhandler_epoll_create1 (sys : SysCallHandler) (flags : Int) :
    SysCallReturn × List Effect :=
  let r := syscallhandler_createEpollHelper sys 1 flags
  ({ state := SysCallState.SYSCALL_DONE, retval := r.1 }, r.2)

/-- `syscallhandler_epoll_ctl`. -/
def syscallhandler_epoll_ctl (sys : SysCallHandler)
    (epfd op fd eventPtr : Int) : SysCallReturn × List Effect :=
  if eventPtr = 0 then
    ({ state := SysCallState.SYSCALL_DONE, retval := -EFAULT }, [])
  else if epfd = fd then
    ({ state := SysCallState.SYSCALL_DONE, retval := -EINVAL }, [])
  else
    let descriptor := sys.lookupDescriptor epfd
    let errorCode := validateDescriptor descriptor DType.DT_EPOLL
    let tr0 := [Effect.lookupDescriptor epfd]
    if errorCode ≠ 0 then
      ({ state := SysCallState.SYSCALL_DONE, retval := errorCode }, tr0)
    else
      -- validation passed, so the cast `(Epoll*)descriptor` is safe
      let epoll := descriptor.getD sys.createdEpoll
      let child := sys.lookupDescriptor fd
      let childCode := validateDescriptor child DType.DT_NONE
      let event := sys.readEvent eventPtr
      let tr1 := tr0 ++ [Effect.lookupDescriptor fd,
                         Effect.getReadablePtr eventPtr sizeofEpollEvent]
      if childCode = 0 then
        let c := child.getD sys.createdEpoll
        let rc := sys.epollControl epoll op c event
        ({ state := SysCallState.SYSCALL_DONE, retval := rc },
          tr1 ++ [Effect.epollControl epfd op fd])
      else
        let osfd0 := sys.getOSHandle fd
        let osfd := if osfd0 ≥ 0 then osfd0 else fd
        let rc := sys.epollControlOS epoll op osfd event
        ({ state := SysCallState.SYSCALL_DONE, retval := rc },
          tr1 ++ [Effect.epollControlOS epfd op osfd])

/-- `syscallhandler_epoll_wait`. -/
def syscallhandler_epoll_wait (sys : SysCallHandler)
    (epfd eventsPtr maxevents timeout_ms : Int) :
    SysCallReturn × List Effect :=
  if maxevents ≤ 0 then
    ({ state := SysCallState.SYSCALL_DONE, retval := -EINVAL }, [])
  else if eventsPtr = 0 then
    ({ state := SysCallState.SYSCALL_DONE, retval := -EFAULT }, [])
  else
    let descriptor := sys.lookupDescriptor epfd
    let errorCode := validateDescriptor descriptor DType.DT_EPOLL
    let tr0 := [Effect.lookupDescriptor epfd]
    if errorCode ≠ 0 then
      ({ state := SysCallState.SYSCALL_DONE, retval := errorCode }, tr0)
    else
      -- validation passed, so the cast `(Epoll*)descriptor` is safe
      let epoll := descriptor.getD sys.createdEpoll
      let numReadyEvents := sys.numReadyEvents epoll
      let tr1 := tr0 ++ [Effect.getNumReadyEvents epfd]
      if numReadyEvents = 0 then
        if timeout_ms = 0 ∨ sys.wasBlocked then
          ({ state := SysCallState.SYSCALL_DONE, retval := 0 }, tr1)
        else
          let tr2 := tr1 ++
            (if timeout_ms > 0 then [Effect.setListenTimeout timeout_ms]
             else [])
          let tr3 := tr2 ++
            [Effect.listenForStatus (decide (timeout_ms > 0)) epfd
              DS_READABLE]
          ({ state := SysCallState.SYSCALL_BLOCK, retval := 0 }, tr3)
      else
        let numEventsNeeded := min maxevents.toNat numReadyEvents
        let sizeNeeded := sizeofEpollEvent * numEventsNeeded
        let nEvents := epoll_getEvents_count numReadyEvents numEventsNeeded
        ({ state := SysCallState.SYSCALL_DONE, retval := (nEvents : Int) },
          tr1 ++ [Effect.getWriteablePtr eventsPtr sizeNeeded,
                  Effect.getEvents epfd numEventsNeeded])

/-! Concrete sample environments used by witnesses. -/

/-- A sample epoll descriptor at handle 5. -/
def sampleEpollDesc : Descriptor :=
  { dtype := DType.DT_EPOLL, handle := 5, flags := 0 }

/-- A sample simulated (non-epoll) descriptor at handle 6. -/
def sampleSockDesc : Descriptor :=
  { dtype := DType.DT_TCPSOCKET, handle := 6, flags := 0 }

/-- A sample environment: an epoll at handle 5, a socket at handle 6,
no OS-handle mappings, `n` ready events, was-blocked flag `wb`. -/
def sampleSys (n : Nat) (wb : Bool) : SysCallHandler :=
  { lookupDescriptor := fun fd =>
      if fd = 5 then some sampleEpollDesc
      else if fd = 6 then some sampleSockDesc
      else none
    getOSHandle := fun _ => -1
    createdEpoll := { dtype := DType.DT_EPOLL, handle := 7, flags := 0 }
    numReadyEvents := fun _ => n
    epollControl := fun _ _ _ _ => 0
    epollControlOS := fun _ _ _ _ => 0
    readEvent := fun _ => { events := 1, data := 42 }
    wasBlocked := wb }

/-! Theorems. -/

/-- C1: on a valid epoll with zero ready events, if `timeout_ms == 0`
or the call is a resumed retry, `epoll_wait` returns DONE with result 0
and neither registers a wake condition nor sets a listen timeout. -/
theorem epoll_wait_zero_ready_immediate
    (sys : SysCallHandler) (epfd eventsPtr maxevents timeout_ms : Int)
    (d : Descriptor)
    (hmax : 0 < maxevents) (hptr : eventsPtr ≠ 0)
    (hl : sys.lookupDescriptor epfd = some d)
    (ht : d.dtype = DType.DT_EPOLL)
    (hready : sys.numReadyEvents d = 0)
    (htime : timeout_ms = 0 ∨ sys.wasBlocked = true) :
    (syscallhandler_epoll_wait sys epfd eventsPtr maxevents timeout_ms).1 =
      { state := SysCallState.SYSCALL_DONE, retval := 0 } ∧
    (∀ b t m, Effect.listenForStatus b t m ∉
      (syscallhandler_epoll_wait sys epfd eventsPtr maxevents timeout_ms).2) ∧
    (∀ ms, Effect.setListenTimeout ms ∉
      (syscallhandler_epoll_wait sys epfd eventsPtr maxevents timeout_ms).2) := by
  have hcond : (timeout_ms = 0 ∨ sys.wasBlocked = true) := htime
  simp only [syscallhandler_epoll_wait, not_le.mpr hmax, if_false, hptr,
    if_neg hptr, hl, validateDescriptor, ht]
  simp [hready, hl, htime]

/-- C1 witness. -/
theorem epoll_wait_zero_ready_immediate_witness :
    (syscallhandler_epoll_wait (sampleSys 0 false) 5 100 8 0).1 =
      { state := SysCallState.SYSCALL_DONE, retval := 0 } ∧
    (∀ b t m, Effect.listenForStatus b t m ∉
      (syscallhandler_epoll_wait (sampleSys 0 false) 5 100 8 0).2) ∧
    (∀ ms, Effect.setListenTimeout ms ∉
      (syscallhandler_epoll_wait (sampleSys 0 false) 5 100 8 0).2) :=
  epoll_wait_zero_ready_immediate (sampleSys 0 false) 5 100 8 0
    sampleEpollDesc (by decide) (by decide) (by decide) (by decide)
    (by decide) (Or.inl rfl)

/-- C2: a re-evaluation after a previous BLOCK (was-blocked flag set)
never returns BLOCK again: every return is DONE, with result 0 when the
epoll is valid and nothing is ready — even for negative `timeout_ms` —
and with the ready-event count otherwise. -/
theorem epoll_wait_resumed_never_blocks
    (sys : SysCallHandler) (epfd eventsPtr maxevents timeout_ms : Int)
    (hwb : sys.wasBlocked = true) :
    (syscallhandler_epoll_wait sys epfd eventsPtr maxevents timeout_ms).1.state
      = SysCallState.SYSCALL_DONE ∧
    (∀ d : Descriptor, sys.lookupDescriptor epfd = some d →
      d.dtype = DType.DT_EPOLL → 0 < maxevents → eventsPtr ≠ 0 →
      (sys.numReadyEvents d = 0 →
        (syscallhandler_epoll_wait sys epfd eventsPtr maxevents
          timeout_ms).1.retval = 0) ∧
      (0 < sys.numReadyEvents d →
        (syscallhandler_epoll_wait sys epfd eventsPtr maxevents
          timeout_ms).1.retval =
          (min maxevents.toNat (sys.numReadyEvents d) : Nat))) := by
  constructor
  · simp only [syscallhandler_epoll_wait, hwb]
    split
    · rfl
    · split
      · rfl
      · split
        · rfl
        · split
          · simp
          · rfl
  · intro d hl ht hmax hptr
    constructor
    · intro hready
      simp only [syscallhandler_epoll_wait, not_le.mpr hmax, if_false,
        if_neg hptr, hl, validateDescriptor, ht]
      simp [hready, hl, hwb]
    · intro hready
      simp only [syscallhandler_epoll_wait, not_le.mpr hmax, if_false,
        if_neg hptr, hl, validateDescriptor, ht]
      simp [hl, Nat.pos_iff_ne_zero.mp hready, epoll_getEvents_count,
        Nat.min_assoc]

/-- C2 witness. -/
theorem epoll_wait_resumed_never_blocks_witness :
    (syscallhandler_epoll_wait (sampleSys 0 true) 5 100 8 (-1)).1.state
      = SysCallState.SYSCALL_DONE ∧
    (∀ d : Descriptor, (sampleSys 0 true).lookupDescriptor 5 = some d →
      d.dtype = DType.DT_EPOLL → (0 : Int) < 8 → (100 : Int) ≠ 0 →
      ((sampleSys 0 true).numReadyEvents d = 0 →
        (syscallhandler_epoll_wait (sampleSys 0 true) 5 100 8
          (-1)).1.retval = 0) ∧
      (0 < (sampleSys 0 true).numReadyEvents d →
        (syscallhandler_epoll_wait (sampleSys 0 true) 5 100 8
          (-1)).1.retval =
          (min (8 : Int).toNat ((sampleSys 0 true).numReadyEvents d) :
            Nat))) :=
  epoll_wait_resumed_never_blocks (sampleSys 0 true) 5 100 8 (-1) rfl

/-- C3: a first-attempt `epoll_wait` on a valid epoll with zero ready
events and nonzero `timeout_ms` registers a wake condition on the
epoll's readability — with a timer exactly when `timeout_ms > 0` — and
returns BLOCK. -/
theorem epoll_wait_blocks_first_attempt
    (sys : SysCallHandler) (epfd eventsPtr maxevents timeout_ms : Int)
    (d : Descriptor)
    (hwb : sys.wasBlocked = false)
    (hl : sys.lookupDescriptor epfd = some d)
    (ht : d.dtype = DType.DT_EPOLL)
    (hmax : 0 < maxevents) (hptr : eventsPtr ≠ 0)
    (hready : sys.numReadyEvents d = 0)
    (htm : timeout_ms ≠ 0) :
    (syscallhandler_epoll_wait sys epfd eventsPtr maxevents
      timeout_ms).1.state = SysCallState.SYSCALL_BLOCK ∧
    Effect.listenForStatus (decide (timeout_ms > 0)) epfd DS_READABLE ∈
      (syscallhandler_epoll_wait sys epfd eventsPtr maxevents timeout_ms).2 ∧
    (0 < timeout_ms → Effect.setListenTimeout timeout_ms ∈
      (syscallhandler_epoll_wait sys epfd eventsPtr maxevents timeout_ms).2) ∧
    (timeout_ms < 0 → ∀ ms, Effect.setListenTimeout ms ∉
      (syscallhandler_epoll_wait sys epfd eventsPtr maxevents timeout_ms).2) := by
  simp only [syscallhandler_epoll_wait, not_le.mpr hmax, if_false,
    if_neg hptr, hl, validateDescriptor, ht, hready]
  rcases lt_or_gt_of_ne htm with hneg | hpos
  · simp [hready, hwb, htm, not_lt.mpr (le_of_lt hneg), not_lt_of_gt hneg]
  · simp [hready, hwb, htm, hpos, hpos.le]

/-- C3 witness (exercised on both the positive-timeout and the
infinite-wait path). -/
theorem epoll_wait_blocks_first_attempt_witness :
    ((syscallhandler_epoll_wait (sampleSys 0 false) 5 100 8 50).1.state
      = SysCallState.SYSCALL_BLOCK ∧
     Effect.listenForStatus (decide ((50 : Int) > 0)) 5 DS_READABLE ∈
      (syscallhandler_epoll_wait (sampleSys 0 false) 5 100 8 50).2 ∧
     ((0 : Int) < 50 → Effect.setListenTimeout 50 ∈
      (syscallhandler_epoll_wait (sampleSys 0 false) 5 100 8 50).2) ∧
     ((50 : Int) < 0 → ∀ ms, Effect.setListenTimeout ms ∉
      (syscallhandler_epoll_wait (sampleSys 0 false) 5 100 8 50).2)) ∧
    ((syscallhandler_epoll_wait (sampleSys 0 false) 5 100 8 (-1)).1.state
      = SysCallState.SYSCALL_BLOCK ∧
     Effect.listenForStatus (decide ((-1 : Int) > 0)) 5 DS_READABLE ∈
      (syscallhandler_epoll_wait (sampleSys 0 false) 5 100 8 (-1)).2 ∧
     ((0 : Int) < -1 → Effect.setListenTimeout (-1) ∈
      (syscallhandler_epoll_wait (sampleSys 0 false) 5 100 8 (-1)).2) ∧
     ((-1 : Int) < 0 → ∀ ms, Effect.setListenTimeout ms ∉
      (syscallhandler_epoll_wait (sampleSys 0 false) 5 100 8 (-1)).2)) :=
  ⟨epoll_wait_blocks_first_attempt (sampleSys 0 false) 5 100 8 50
      sampleEpollDesc rfl (by decide) (by decide) (by decide) (by decide)
      (by decide) (by decide),
   epoll_wait_blocks_first_attempt (sampleSys 0 false) 5 100 8 (-1)
      sampleEpollDesc rfl (by decide) (by decide) (by decide) (by decide)
      (by decide) (by decide)⟩

/-- C4: on a valid epoll with ready events, `epoll_wait` computes
`n = min(maxevents, numReady())`, requests a guest write window of
exactly `n` event records, calls `getEvents(n)`, and returns DONE
with result `n`. -/
theorem epoll_wait_ready_events
    (sys : SysCallHandler) (epfd eventsPtr maxevents timeout_ms : Int)
    (d : Descriptor)
    (hl : sys.lookupDescriptor epfd = some d)
    (ht : d.dtype = DType.DT_EPOLL)
    (hmax : 0 < maxevents) (hptr : eventsPtr ≠ 0)
    (hready : 0 < sys.numReadyEvents d) :
    (syscallhandler_epoll_wait sys epfd eventsPtr maxevents timeout_ms).1 =
      { state := SysCallState.SYSCALL_DONE,
        retval := (min maxevents.toNat (sys.numReadyEvents d) : Nat) } ∧
    Effect.getWriteablePtr eventsPtr
        (sizeofEpollEvent * min maxevents.toNat (sys.numReadyEvents d)) ∈
      (syscallhandler_epoll_wait sys epfd eventsPtr maxevents timeout_ms).2 ∧
    Effect.getEvents epfd (min maxevents.toNat (sys.numReadyEvents d)) ∈
      (syscallhandler_epoll_wait sys epfd eventsPtr maxevents timeout_ms).2 := by
  simp only [syscallhandler_epoll_wait, not_le.mpr hmax, if_false,
    if_neg hptr, hl, validateDescriptor, ht]
  simp [hl, Nat.pos_iff_ne_zero.mp hready, epoll_getEvents_count,
    Nat.min_assoc]

/-- C4 witness. -/
theorem epoll_wait_ready_events_witness :
    (syscallhandler_epoll_wait (sampleSys 3 false) 5 100 8 0).1 =
      { state := SysCallState.SYSCALL_DONE,
        retval := (min (8 : Int).toNat
          ((sampleSys 3 false).numReadyEvents sampleEpollDesc) : Nat) } ∧
    Effect.getWriteablePtr 100
        (sizeofEpollEvent * min (8 : Int).toNat
          ((sampleSys 3 false).numReadyEvents sampleEpollDesc)) ∈
      (syscallhandler_epoll_wait (sampleSys 3 false) 5 100 8 0).2 ∧
    Effect.getEvents 5 (min (8 : Int).toNat
        ((sampleSys 3 false).numReadyEvents sampleEpollDesc)) ∈
      (syscallhandler_epoll_wait (sampleSys 3 false) 5 100 8 0).2 :=
  epoll_wait_ready_events (sampleSys 3 false) 5 100 8 0 sampleEpollDesc
    rfl (by decide) (by decide) (by decide) (by decide)

/-- C5 counterexample: with `maxevents = 0` and a null events pointer,
`epoll_wait` returns `-EINVAL`, not `-EFAULT`, so "every call with a
null events pointer returns `-EFAULT`" fails as stated. -/
theorem epoll_wait_null_ptr_not_always_efault :
    (syscallhandler_epoll_wait (sampleSys 0 false) 5 0 0 0).1.retval
      = -EINVAL ∧ -EINVAL ≠ (-EFAULT : Int) := by
  constructor
  · rfl
  · decide

/-- C5 (amended): `maxevents ≤ 0` is rejected with `-EINVAL`, and a
null events pointer with `maxevents > 0` is rejected with `-EFAULT`, in
both cases with an empty collaborator trace — before any descriptor
lookup or engine call. -/
theorem epoll_wait_argument_checks
    (sys : SysCallHandler) (epfd eventsPtr maxevents timeout_ms : Int) :
    (maxevents ≤ 0 →
      (syscallhandler_epoll_wait sys epfd eventsPtr maxevents timeout_ms) =
        ({ state := SysCallState.SYSCALL_DONE, retval := -EINVAL }, [])) ∧
    (0 < maxevents → eventsPtr = 0 →
      (syscallhandler_epoll_wait sys epfd eventsPtr maxevents timeout_ms) =
        ({ state := SysCallState.SYSCALL_DONE, retval := -EFAULT }, [])) := by
  constructor
  · intro hmax
    simp [syscallhandler_epoll_wait, hmax]
  · intro hmax hptr
    simp [syscallhandler_epoll_wait, not_le.mpr hmax, hptr]

/-- C5 witness. -/
theorem epoll_wait_argument_checks_witness :
    (syscallhandler_epoll_wait (sampleSys 0 false) 5 100 0 0) =
      ({ state := SysCallState.SYSCALL_DONE, retval := -EINVAL }, []) ∧
    (syscallhandler_epoll_wait (sampleSys 0 false) 5 0 8 0) =
      ({ state := SysCallState.SYSCALL_DONE, retval := -EFAULT }, []) :=
  ⟨(epoll_wait_argument_checks (sampleSys 0 false) 5 100 0 0).1
      (by decide),
   (epoll_wait_argument_checks (sampleSys 0 false) 5 0 8 0).2
      (by decide) rfl⟩

/-- C10: the `maxevents` check precedes the null-pointer check — with
both `maxevents ≤ 0` and a null events pointer, the result is
`-EINVAL`, not `-EFAULT`. -/
theorem epoll_wait_maxevents_checked_first
    (sys : SysCallHandler) (epfd maxevents timeout_ms : Int)
    (hmax : maxevents ≤ 0) :
    (syscallhandler_epoll_wait sys epfd 0 maxevents timeout_ms).1.retval
      = -EINVAL ∧ -EINVAL ≠ (-EFAULT : Int) := by
  refine ⟨?_, by decide⟩
  simp [syscallhandler_epoll_wait, hmax]

/-- C10 witness. -/
theorem epoll_wait_maxevents_checked_first_witness :
    (syscallhandler_epoll_wait (sampleSys 0 false) 5 0 (-3) 0).1.retval
      = -EINVAL ∧ -EINVAL ≠ (-EFAULT : Int) :=
  epoll_wait_maxevents_checked_first (sampleSys 0 false) 5 (-3) 0
    (by decide)

/-- C6 counterexample: with a null event pointer and `epfd == fd`,
`epoll_ctl` returns `-EFAULT`, not `-EINVAL`, so "every call with
`epfd == fd` returns `-EINVAL`" fails as stated. -/
theorem epoll_ctl_self_watch_not_always_einval :
    (syscallhandler_epoll_ctl (sampleSys 0 false) 5 1 5 0).1.retval
      = -EFAULT ∧ -EFAULT ≠ (-EINVAL : Int) := by
  constructor
  · rfl
  · decide

/-- C6 (amended): a null event pointer is rejected with `-EFAULT` for
every op (DEL included), and `epfd == fd` with a non-null event pointer
is rejected with `-EINVAL`; both rejections leave an empty collaborator
trace — before resolving either descriptor and without mutation. -/
theorem epoll_ctl_argument_checks
    (sys : SysCallHandler) (epfd op fd eventPtr : Int) :
    (eventPtr = 0 →
      (syscallhandler_epoll_ctl sys epfd op fd eventPtr) =
        ({ state := SysCallState.SYSCALL_DONE, retval := -EFAULT }, [])) ∧
    (eventPtr ≠ 0 → epfd = fd →
      (syscallhandler_epoll_ctl sys epfd op fd eventPtr) =
        ({ state := SysCallState.SYSCALL_DONE, retval := -EINVAL }, [])) := by
  constructor
  · intro hptr
    simp [syscallhandler_epoll_ctl, hptr]
  · intro hptr heq
    simp [syscallhandler_epoll_ctl, hptr, heq]

/-- C6 witness (DEL op on the null-pointer branch). -/
theorem epoll_ctl_argument_checks_witness :
    (syscallhandler_epoll_ctl (sampleSys 0 false) 5 2 6 0) =
      ({ state := SysCallState.SYSCALL_DONE, retval := -EFAULT }, []) ∧
    (syscallhandler_epoll_ctl (sampleSys 0 false) 5 1 5 100) =
      ({ state := SysCallState.SYSCALL_DONE, retval := -EINVAL }, []) :=
  ⟨(epoll_ctl_argument_checks (sampleSys 0 false) 5 2 6 0).1 rfl,
   (epoll_ctl_argument_checks (sampleSys 0 false) 5 1 5 100).2
      (by decide) rfl⟩

/-- C7: after argument validation and epoll resolution, `epoll_ctl`
dispatches to `epoll_control` when `fd` resolves to a simulated
descriptor, and otherwise to `epoll_controlOS` with the OS handle from
the process map, falling back to the raw `fd` when the lookup result is
negative. -/
theorem epoll_ctl_dispatch
    (sys : SysCallHandler) (epfd op fd eventPtr : Int) (d : Descriptor)
    (hptr : eventPtr ≠ 0) (hne : epfd ≠ fd)
    (hl : sys.lookupDescriptor epfd = some d)
    (ht : d.dtype = DType.DT_EPOLL) :
    (∀ c : Descriptor, sys.lookupDescriptor fd = some c →
      (syscallhandler_epoll_ctl sys epfd op fd eventPtr).1 =
        { state := SysCallState.SYSCALL_DONE,
          retval := sys.epollControl d op c (sys.readEvent eventPtr) } ∧
      Effect.epollControl epfd op fd ∈
        (syscallhandler_epoll_ctl sys epfd op fd eventPtr).2 ∧
      (∀ o, Effect.epollControlOS epfd op o ∉
        (syscallhandler_epoll_ctl sys epfd op fd eventPtr).2)) ∧
    (sys.lookupDescriptor fd = none →
      (syscallhandler_epoll_ctl sys epfd op fd eventPtr).1 =
        { state := SysCallState.SYSCALL_DONE,
          retval := sys.epollControlOS d op
            (if sys.getOSHandle fd ≥ 0 then sys.getOSHandle fd else fd)
            (sys.readEvent eventPtr) } ∧
      Effect.epollControlOS epfd op
          (if sys.getOSHandle fd ≥ 0 then sys.getOSHandle fd else fd) ∈
        (syscallhandler_epoll_ctl sys epfd op fd eventPtr).2 ∧
      (∀ c, Effect.epollControl epfd op c ∉
        (syscallhandler_epoll_ctl sys epfd op fd eventPtr).2)) := by
  constructor
  · intro c hc
    simp [syscallhandler_epoll_ctl, hptr, hne, hl, validateDescriptor,
      ht, hc]
  · intro hc
    simp [syscallhandler_epoll_ctl, hptr, hne, hl, validateDescriptor,
      ht, hc, EBADF]

/-- C7 witness (simulated child at fd 6, OS fallback at fd 3 with no
OS-handle mapping, so the raw fd is used). -/
theorem epoll_ctl_dispatch_witness :
    ((syscallhandler_epoll_ctl (sampleSys 0 false) 5 1 6 100).1 =
        { state := SysCallState.SYSCALL_DONE,
          retval := (sampleSys 0 false).epollControl sampleEpollDesc 1
            sampleSockDesc ((sampleSys 0 false).readEvent 100) } ∧
      Effect.epollControl 5 1 6 ∈
        (syscallhandler_epoll_ctl (sampleSys 0 false) 5 1 6 100).2 ∧
      (∀ o, Effect.epollControlOS 5 1 o ∉
        (syscallhandler_epoll_ctl (sampleSys 0 false) 5 1 6 100).2)) ∧
    ((syscallhandler_epoll_ctl (sampleSys 0 false) 5 1 3 100).1 =
        { state := SysCallState.SYSCALL_DONE,
          retval := (sampleSys 0 false).epollControlOS sampleEpollDesc 1
            (if (sampleSys 0 false).getOSHandle 3 ≥ 0 then
              (sampleSys 0 false).getOSHandle 3 else 3)
            ((sampleSys 0 false).readEvent 100) } ∧
      Effect.epollControlOS 5 1
          (if (sampleSys 0 false).getOSHandle 3 ≥ 0 then
            (sampleSys 0 false).getOSHandle 3 else 3) ∈
        (syscallhandler_epoll_ctl (sampleSys 0 false) 5 1 3 100).2 ∧
      (∀ c, Effect.epollControl 5 1 c ∉
        (syscallhandler_epoll_ctl (sampleSys 0 false) 5 1 3 100).2)) :=
  ⟨(epoll_ctl_dispatch (sampleSys 0 false) 5 1 6 100 sampleEpollDesc
      (by decide) (by decide) rfl (by decide)).1 sampleSockDesc rfl,
   (epoll_ctl_dispatch (sampleSys 0 false) 5 1 3 100 sampleEpollDesc
      (by decide) (by decide) rfl (by decide)).2 rfl⟩

/-- C8: the shared creation path yields `-EINVAL` exactly when
`epoll_create` gets `size ≤ 0` or `epoll_create1` gets flags outside
`{0, EPOLL_CLOEXEC}`; otherwise it allocates a new epoll descriptor
and returns its handle, ignores the size value, and records the
CLOEXEC flag exactly when requested. (Descriptor-table handles are
nonnegative.) -/
theorem epoll_create_shared_path
    (sys : SysCallHandler) (size size2 flags : Int)
    (hh : 0 ≤ sys.createdEpoll.handle) :
    ((syscallhandler_epoll_create sys size).1.retval = -EINVAL ↔
      size ≤ 0) ∧
    ((syscallhandler_epoll_create1 sys flags).1.retval = -EINVAL ↔
      (flags ≠ 0 ∧ flags ≠ EPOLL_CLOEXEC)) ∧
    (0 < size → (flags = 0 ∨ flags = EPOLL_CLOEXEC) →
      (syscallhandler_createEpollHelper sys size flags).1 =
          sys.createdEpoll.handle ∧
      Effect.createDescriptor DType.DT_EPOLL ∈
        (syscallhandler_createEpollHelper sys size flags).2 ∧
      (Effect.addFlags sys.createdEpoll.handle EPOLL_CLOEXEC ∈
          (syscallhandler_createEpollHelper sys size flags).2 ↔
        flags = EPOLL_CLOEXEC)) ∧
    (0 < size → 0 < size2 →
      syscallhandler_createEpollHelper sys size flags =
        syscallhandler_createEpollHelper sys size2 flags) := by
  refine ⟨?_, ?_, ?_, ?_⟩
  · rcases le_or_lt size 0 with hs | hs
    · simp [syscallhandler_epoll_create, syscallhandler_createEpollHelper,
        hs]
    · simp only [syscallhandler_epoll_create,
        syscallhandler_createEpollHelper, not_le.mpr hs, hs,
        EPOLL_CLOEXEC, EINVAL]
      simp only [iff_false, not_le.mpr hs]
      simp
      omega
  · by_cases hbad : flags ≠ 0 ∧ flags ≠ EPOLL_CLOEXEC
    · simp [syscallhandler_epoll_create1, syscallhandler_createEpollHelper,
        hbad]
    · simp only [syscallhandler_epoll_create1,
        syscallhandler_createEpollHelper]
      simp only [not_and_or, not_ne_iff] at hbad
      have hcond : ¬((1 : Int) ≤ 0 ∨ (flags ≠ 0 ∧ flags ≠ EPOLL_CLOEXEC)) := by
        rcases hbad with h | h <;> simp [h]
      simp only [if_neg hcond]
      constructor
      · intro habs
        exfalso
        simp only [EINVAL] at habs
        omega
      · intro habs
        exfalso
        rcases hbad with h | h <;> simp [h] at habs
  · intro hs hfl
    have hcond : ¬(size ≤ 0 ∨ (flags ≠ 0 ∧ flags ≠ EPOLL_CLOEXEC)) := by
      rcases hfl with h | h <;> simp [not_le.mpr hs, h]
    rcases hfl with h | h
    · subst h
      have hland : Int.land 0 524288 = 0 := by decide
      simp [syscallhandler_createEpollHelper, not_le.mpr hs, hland,
        EPOLL_CLOEXEC]
    · subst h
      have hland : ¬(Int.land 524288 524288 = 0) := by decide
      simp [syscallhandler_createEpollHelper, not_le.mpr hs, hland,
        EPOLL_CLOEXEC]
  · intro hs hs2
    by_cases hbad : flags ≠ 0 ∧ flags ≠ EPOLL_CLOEXEC
    · simp [syscallhandler_createEpollHelper, hbad]
    · simp [syscallhandler_createEpollHelper, not_le.mpr hs,
        not_le.mpr hs2, hbad]

/-- C8 witness. -/
theorem epoll_create_shared_path_witness :
    (((syscallhandler_epoll_create (sampleSys 0 false) 2).1.retval =
        -EINVAL ↔ (2 : Int) ≤ 0) ∧
    ((syscallhandler_epoll_create1 (sampleSys 0 false)
        EPOLL_CLOEXEC).1.retval = -EINVAL ↔
      (EPOLL_CLOEXEC ≠ 0 ∧ EPOLL_CLOEXEC ≠ EPOLL_CLOEXEC)) ∧
    ((0 : Int) < 2 → (EPOLL_CLOEXEC = 0 ∨ EPOLL_CLOEXEC = EPOLL_CLOEXEC) →
      (syscallhandler_createEpollHelper (sampleSys 0 false) 2
          EPOLL_CLOEXEC).1 =
        (sampleSys 0 false).createdEpoll.handle ∧
      Effect.createDescriptor DType.DT_EPOLL ∈
        (syscallhandler_createEpollHelper (sampleSys 0 false) 2
          EPOLL_CLOEXEC).2 ∧
      (Effect.addFlags (sampleSys 0 false).createdEpoll.handle
          EPOLL_CLOEXEC ∈
        (syscallhandler_createEpollHelper (sampleSys 0 false) 2
          EPOLL_CLOEXEC).2 ↔
        EPOLL_CLOEXEC = EPOLL_CLOEXEC)) ∧
    ((0 : Int) < 2 → (0 : Int) < 9 →
      syscallhandler_createEpollHelper (sampleSys 0 false) 2
          EPOLL_CLOEXEC =
        syscallhandler_createEpollHelper (sampleSys 0 false) 9
          EPOLL_CLOEXEC)) :=
  epoll_create_shared_path (sampleSys 0 false) 2 9 EPOLL_CLOEXEC
    (by decide)

/-- C9: `epoll_create`, `epoll_create1` and `epoll_ctl` return the DONE
control state on every input; among the four handlers only `epoll_wait`
has a BLOCK return path. -/
theorem epoll_non_wait_handlers_done
    (sys : SysCallHandler) (size flags epfd op fd eventPtr : Int) :
    (syscallhandler_epoll_create sys size).1.state =
      SysCallState.SYSCALL_DONE ∧
    (syscallhandler_epoll_create1 sys flags).1.state =
      SysCallState.SYSCALL_DONE ∧
    (syscallhandler_epoll_ctl sys epfd op fd eventPtr).1.state =
      SysCallState.SYSCALL_DONE := by
  refine ⟨rfl, rfl, ?_⟩
  simp only [syscallhandler_epoll_ctl]
  split
  · rfl
  · split
    · rfl
    · split
      · rfl
      · split
        · rfl
        · rfl

end Shadow
